import Mathlib

/-!
Verification of the EV-charger predictive API repository.

This file gives a shallow embedding, in Lean 4, of the decision logic of
`ev_api_predictive.py` (feature reconciliation, fallback diagnostics, risk
thresholding) and of `dianostic_engine.py` (standardized-deviation
explanation), and settles the frozen claims about that code.

Modelling conventions:
- Python floats are modelled as rationals; the float value NaN (which pandas
  produces for a missing cell of an existing column) is modelled by `none`
  in `Cell := Option ℚ`, and every Python comparison `NaN < c` / `NaN > c`
  is `false`, as in Python.
- A raw JSON record is a finite map `List (String × ℚ)`.
- `pd.DataFrame(data)` for a list of records has as columns the union of
  the records' keys.  In `align_features` every read of the input frame is
  `input_df[key].iloc[0]` (row 0 only) and every write
  `aligned_df[feature] = val` broadcasts one scalar to all rows, so the
  aligned frame consists of `len(data)` identical rows, all computed from
  record 0; the embedding computes that single row and replicates it.
- Exceptions (the KeyError raised by the strict reordering
  `aligned_df[target_features]` when a column was never assigned, or by
  `row_df[feature_names]` on a missing label) are modelled by `none` of an
  `Option` result type.
- `datetime.now()` is modelled by explicit `nowMonth`/`nowDay` arguments.
-/

/-- Contiguous-substring test on character lists: does `pat` occur in `l`? -/
def subOccurs (pat : List Char) : List Char → Bool
  | [] => pat.isEmpty
  | c :: rest => pat.isPrefixOf (c :: rest) || subOccurs pat rest

/-- Python's substring test `pat in s` (contiguous substring). -/
def strContains (s pat : String) : Bool :=
  subOccurs pat.data s.data

/-- A pandas cell: a float, or NaN (`none`). -/
abbrev Cell := Option ℚ

/-- One raw JSON record: a flat map from producer keys to numbers. -/
abbrev RawRecord := List (String × ℚ)

/-- Python `cell < c`: false when the cell is NaN. -/
def pyLt (c : Cell) (b : ℚ) : Bool :=
  match c with
  | some q => decide (q < b)
  | none => false

/-- Python `cell > c`: false when the cell is NaN. -/
def pyGt (c : Cell) (b : ℚ) : Bool :=
  match c with
  | some q => decide (b < q)
  | none => false

/-- Multiplication of a cell by a float: NaN propagates. -/
def cellMul (c : Cell) (m : ℚ) : Cell :=
  c.map (fun q => q * m)

/-- Round half to even, as Python's `round` and float formatting do. -/
def roundHalfEven (q : ℚ) : ℤ :=
  let f : ℤ := Rat.floor q
  let r : ℚ := q - (f : ℚ)
  if r < 1 / 2 then f
  else if 1 / 2 < r then f + 1
  else if f % 2 = 0 then f else f + 1

/-- Python's fixed-point float formatting `f"{q:.Nf}"` (for finite values). -/
def fmtFixed (digits : ℕ) (q : ℚ) : String :=
  let n : ℤ := roundHalfEven (q * (10 : ℚ) ^ digits)
  let m : ℕ := n.natAbs
  let ip : ℕ := m / 10 ^ digits
  let fp : ℕ := m % 10 ^ digits
  let fps : String := toString fp
  let pad : String := String.mk (List.replicate (digits - fps.length) '0')
  (if n < 0 then "-" else "") ++ toString ip ++ "." ++ pad ++ fps

/-- Formatting of a cell: Python renders the float NaN as "nan". -/
def fmtCell (digits : ℕ) (c : Cell) : String :=
  match c with
  | some q => fmtFixed digits q
  | none => "nan"

/-- Python `", ".join(reasons)`. -/
def joinComma : List String → String
  | [] => ""
  | [a] => a
  | a :: b :: rest => a ++ (", " ++ joinComma (b :: rest))

namespace EvApi

/-- The dictionary `alias_map` of `align_features` (source lines 55-61):
canonical producer key -> list of model-feature names it may serve. -/
def aliasMap : List (String × List String) :=
  [("avg_peak_temp", ["avg_peak_temp", "temperature", "temp"]),
   ("voltage_instability", ["voltage_instability", "voltage", "variance", "voltagemeasure"]),
   ("error_rate", ["error_rate", "error"]),
   ("sessions_today", ["sessions_today", "sessions"]),
   ("ambient_temp", ["ambient_temp", "ambient"])]

/-- The `search_keys` list for one manifest feature: the feature itself, then
every `alias_map` key whose alias list contains the feature (source lines 82-85). -/
def searchKeys (feature : String) : List String :=
  feature :: (aliasMap.filter (fun p => p.2.contains feature)).map (fun p => p.1)

/-- Membership of a key in `input_df.columns`: the union of the records' keys. -/
def isColumn (batch : List RawRecord) (k : String) : Bool :=
  batch.any (fun r => r.any (fun p => p.1 == k))

/-- The value `input_df[key].iloc[0]`: record 0's entry, NaN when record 0
lacks a key that some other record supplies. -/
def getCell (batch : List RawRecord) (k : String) : Cell :=
  (batch.headD []).lookup k

/-- Assignment `aligned_df[feature] = val`: overwrite in place, or append a
new column at the end. -/
def setCol (assigned : List (String × Cell)) (k : String) (v : Cell) :
    List (String × Cell) :=
  if assigned.any (fun p => p.1 == k) then
    assigned.map (fun p => if p.1 == k then (k, v) else p)
  else
    assigned ++ [(k, v)]

/-- The proxy search of the rolling-std branch: the first already aligned
column whose name contains `pat` and not "std"; `proxy_val` stays `0` when
none is found (source lines 111-129). -/
def findProxy (assigned : List (String × Cell)) (pat : String) : Cell :=
  match assigned.find? (fun p => strContains p.1 pat && !strContains p.1 "std") with
  | some p => p.2
  | none => some 0

/-- The prefix of `l` before the first occurrence of `pat`
(Python `feature.split(pat)[0]`, for nonempty `pat`). -/
def splitBefore (pat : List Char) : List Char → List Char
  | [] => []
  | c :: rest =>
    if pat.isPrefixOf (c :: rest) then []
    else c :: splitBefore pat rest

/-- Python `feature.split('_roll')[0]` (source line 140). -/
def rootName (feature : String) : String :=
  String.mk (splitBefore "_roll".data feature.data)

/-- One iteration of the `for feature in target_features` loop of
`align_features` (source lines 64-154), updating the aligned columns. -/
def alignStep (nowMonth nowDay : ℚ) (batch : List RawRecord)
    (assigned : List (String × Cell)) (feature : String) :
    List (String × Cell) :=
  if feature = "month_of_year" then setCol assigned feature (some nowMonth)
  else if feature = "day_of_week" then setCol assigned feature (some nowDay)
  else if strContains feature "model_type" then setCol assigned feature (some 0)
  else
    match (searchKeys feature).find? (fun k => isColumn batch k) with
    | some key =>
      let raw := getCell batch key
      let mult : ℚ :=
        if (strContains feature "voltage" || strContains feature "instability")
            && pyLt raw 5 then 230 else 1
      setCol assigned feature (cellMul raw mult)
    | none =>
      if strContains feature "std" then
        if strContains feature "voltage" then
          let proxy := findProxy assigned "voltage"
          if pyGt proxy 15 then setCol assigned feature (cellMul proxy (2 / 5))
          else setCol assigned feature (cellMul proxy (1 / 20))
        else if strContains feature "temp" then
          let proxy := findProxy assigned "temp"
          if pyGt proxy 80 then setCol assigned feature (cellMul proxy (3 / 20))
          else setCol assigned feature (cellMul proxy (1 / 50))
        else setCol assigned feature (some 0)
      else if strContains feature "roll_mean" then
        let root := rootName feature
        match assigned.find? (fun p => p.1 == root) with
        | some p => setCol assigned feature p.2
        | none =>
          match assigned.find? (fun p => strContains p.1 root) with
          | some p => setCol assigned feature p.2
          | none => assigned
      else setCol assigned feature (some 0)

/-- The aligned columns after the whole loop of `align_features`. -/
def buildAligned (nowMonth nowDay : ℚ) (batch : List RawRecord)
    (target : List String) : List (String × Cell) :=
  target.foldl (alignStep nowMonth nowDay batch) []

/-- The strict reordering `aligned_df[target_features]` (source line 157):
`none` models the KeyError raised when a target column was never assigned. -/
def reorder (assigned : List (String × Cell)) (target : List String) :
    Option (List Cell) :=
  target.mapM (fun f => (assigned.find? (fun p => p.1 == f)).map (fun p => p.2))

/-- The single broadcast row that `align_features` computes (see the NaN and
broadcast conventions in the header comment). -/
def alignRow (nowMonth nowDay : ℚ) (batch : List RawRecord)
    (target : List String) : Option (List Cell) :=
  reorder (buildAligned nowMonth nowDay batch target) target

/-- The function `align_features(input_df, target_features)` of
`ev_api_predictive.py` on a batch of records: one row per input record, every
row the broadcast of the record-0 computation. -/
def align_features (nowMonth nowDay : ℚ) (batch : List RawRecord)
    (target : List String) : Option (List (List Cell)) :=
  (alignRow nowMonth nowDay batch target).map
    (fun row => List.replicate batch.length row)

/-- The `t`/`v`/`e` extraction loops of the API `get_root_cause` (source
lines 168-173): value of the first row label containing `pat` and not
"mean"; the Python locals are initialised to the int `0`. -/
def extractSig (row : List (String × Cell)) (pat : String) : Cell :=
  match row.find? (fun p => strContains p.1 pat && !strContains p.1 "mean") with
  | some p => p.2
  | none => some 0

/-- The `reasons` list of the API `get_root_cause` (source lines 175-178). -/
def reasonsFor (t v e : Cell) : List String :=
  (if pyGt t 60 then ["Overheating (" ++ (fmtCell 1 t ++ "C)")] else []) ++
    (if pyGt v 15 then ["Voltage Instability (" ++ (fmtCell 1 v ++ "V dev)")] else []) ++
    (if pyGt e (1 / 10) then ["High Error Rate (" ++ (fmtCell 2 e ++ ")")] else [])

/-- The function `get_root_cause(row_df, is_high_risk)` of
`ev_api_predictive.py` (source lines 161-183). -/
def get_root_cause (row : List (String × Cell)) (is_high_risk : Bool) : String :=
  let t := extractSig row "avg_peak_temp"
  let v := extractSig row "voltage"
  let e := extractSig row "error"
  let reasons := reasonsFor t v e
  if reasons.isEmpty && is_high_risk then "Anomaly Detected (Pattern)"
  else if reasons.isEmpty then "Normal Range"
  else joinComma reasons

/-- Python's `str.upper()` (ASCII, which covers every string this API
feeds to it). -/
def pyUpper (s : String) : String :=
  s.map Char.toUpper

/-- The function `categorize_failure(text)` of `ev_api_predictive.py`
(source lines 185-190). -/
def categorize_failure (text : String) : String :=
  let t := pyUpper text
  if strContains t "OVERHEATING" then "OVERHEATING"
  else if strContains t "VOLTAGE" then "POWER QUALITY"
  else if strContains t "ERROR" then "SOFTWARE ERROR"
  else "PREDICTIVE ALERT"

/-- Python `round(prob_val, 4)` (round half to even). -/
def roundTo4 (q : ℚ) : ℚ :=
  (roundHalfEven (q * 10000) : ℚ) / 10000

/-- One verdict of the `/predict` response (source lines 235-241). -/
structure Verdict where
  status : String
  risk_level : String
  prob : ℚ
  failure_category : String
  root_cause : String
deriving DecidableEq, Repr

/-- The per-record body of the loop in `predict` (source lines 208-241):
from one aligned row (as the labelled series `df_final.iloc[i]`) and the raw
classifier value `prob` to the emitted verdict. -/
def mkVerdict (row : List (String × Cell)) (p : ℚ) : Verdict :=
  let is_risk_high : Bool := decide (p > 1 / 2)
  let status := if is_risk_high then "Need Attention" else "Normal"
  let risk_level := if is_risk_high then "High" else "Low"
  let root_cause := get_root_cause row is_risk_high
  let category := if is_risk_high then categorize_failure root_cause else "-"
  ⟨status, risk_level, roundTo4 p, category, root_cause⟩

/-- The `/predict` endpoint over a batch (source lines 194-243), with the
opaque trained classifier abstracted as a per-row scoring function. -/
def predict (nowMonth nowDay : ℚ) (batch : List RawRecord)
    (target : List String) (score : List Cell → ℚ) :
    Option (List Verdict) :=
  (align_features nowMonth nowDay batch target).map
    (fun rows => rows.map (fun r => mkVerdict (target.zip r) (score r)))

end EvApi

namespace Diag

/-- `np.where(scales == 0, 1, scales)` of `dianostic_engine.py` line 25. -/
def adjustScales (scales : List ℚ) : List ℚ :=
  scales.map (fun s => if s = 0 then 1 else s)

/-- The z-score vector `(raw_values - means) / scales` (lines 25-27), with
NaN cells propagating. -/
def zScores (raw : List Cell) (means scales : List ℚ) : List Cell :=
  List.zipWith (fun (r : Cell) (ms : ℚ × ℚ) => r.map (fun q => (q - ms.1) / ms.2))
    raw (means.zip (adjustScales scales))

/-- The positive contributions `(name, z)` with `z > 0` (lines 30-36); a NaN
z-score fails the `z > 0` test and is dropped, so the kept scores are plain
rationals. -/
def contributions (names : List String) (zs : List Cell) : List (String × ℚ) :=
  (names.zip zs).filterMap
    (fun p => match p.2 with
      | some q => if 0 < q then some (p.1, q) else none
      | none => none)

/-- Stable insertion into a descending list: the new element, which came
EARLIER in the original list, goes before the first element with a
less-or-equal key, as in Python's stable `list.sort(reverse=True)`. -/
def insDesc (a : String × ℚ) : List (String × ℚ) → List (String × ℚ)
  | [] => [a]
  | b :: l => if b.2 ≤ a.2 then a :: b :: l else b :: insDesc a l

/-- Python's stable `contributions.sort(key=..., reverse=True)` (line 39). -/
def sortDesc : List (String × ℚ) → List (String × ℚ)
  | [] => []
  | a :: l => insDesc a (sortDesc l)

/-- The severity band of lines 50-52 (sequential overwrites). -/
def severity (z : ℚ) : String :=
  if 5 < z then "CRITICAL" else if 3 < z then "High" else "Elevated"

/-- Python's `str.replace(pat, rep)`: replace every non-overlapping
occurrence, left to right (for nonempty `pat`). -/
def replaceData (pat rep : List Char) : List Char → List Char
  | [] => []
  | c :: rest =>
    if pat.isPrefixOf (c :: rest) && !pat.isEmpty then
      rep ++ replaceData pat rep (rest.drop (pat.length - 1))
    else
      c :: replaceData pat rep rest
termination_by l => l.length
decreasing_by
  · simp [List.length_drop]; omega
  · simp

/-- String version of `replaceData`. -/
def pyReplace (s pat rep : String) : String :=
  String.mk (replaceData pat.data rep.data s.data)

/-- Python's `str.title()`: uppercase a letter that starts a run of letters,
lowercase the rest (ASCII). -/
def titleData : List Char → Bool → List Char
  | [], _ => []
  | c :: rest, prevAlpha =>
    (if c.isAlpha then (if prevAlpha then c.toLower else c.toUpper) else c) ::
      titleData rest c.isAlpha

/-- String version of `titleData`. -/
def pyTitle (s : String) : String :=
  String.mk (titleData s.data false)

/-- The display clean-up of lines 55-58. -/
def readableName (feat : String) : String :=
  pyTitle (pyReplace (pyReplace (pyReplace (pyReplace feat
    "_roll_mean_14d" " (14d Avg)") "_roll_mean_7d" " (7d Avg)")
    "_roll_std_14d" " (Variance)") "_" " ")

/-- One rendered driver `f"{readable_name}: {severity} ({score:.1f}σ)"`. -/
def renderDriver (p : String × ℚ) : String :=
  readableName p.1 ++ ": " ++ severity p.2 ++ " (" ++ fmtFixed 1 p.2 ++ "σ)"

/-- Python `" | ".join(explanation)`. -/
def joinBar : List String → String
  | [] => ""
  | [a] => a
  | a :: b :: rest => a ++ (" | " ++ joinBar (b :: rest))

/-- Lines 21-62 of `dianostic_engine.get_root_cause`, once the raw values of
the row have been extracted in feature order. -/
def explainCore (raw : List Cell) (means scales : List ℚ)
    (feature_names : List String) : String :=
  let zs := zScores raw means scales
  let contribs := contributions feature_names zs
  let top := (sortDesc contribs).take 3
  match top with
  | [] => "No specific anomaly detected (All sensors within normal range)."
  | t0 :: _ =>
    if t0.2 < 2 then "No specific anomaly detected (All sensors within normal range)."
    else joinBar (top.map renderDriver)

/-- The function `get_root_cause(row_df, pipeline, feature_names)` of
`dianostic_engine.py`.  The opaque pipeline is abstracted as its optional
scaler parameters `(mean_, scale_)`; `none` of the inner match models the
KeyError of `row_df[feature_names]` on a missing label.  Note the function
takes NO risk hint and is never called by the API module. -/
def get_root_cause (row : List (String × Cell))
    (scaler : Option (List ℚ × List ℚ)) (feature_names : List String) :
    Option String :=
  match scaler with
  | none => some "Cannot diagnostics: Scaler not found in pipeline."
  | some (means, scales) =>
    match feature_names.mapM
        (fun n => (row.find? (fun p => p.1 == n)).map (fun p => p.2)) with
    | none => none
    | some raw => some (explainCore raw means scales feature_names)

end Diag

/-! Helper lemmas shared by several claims. -/

/-- `", ".join` of a nonempty list starts with its head. -/
theorem joinComma_cons (a : String) (l : List String) :
    ∃ s, joinComma (a :: l) = a ++ s := by
  cases l with
  | nil => exact ⟨"", by simp [joinComma]⟩
  | cons b r => exact ⟨", " ++ joinComma (b :: r), rfl⟩

/-- A string whose first character is not 'N' is not "Normal Range",
whatever follows it. -/
theorem lit_append_ne_normal (p r : String) (c : Char) (l : List Char)
    (hp : p.data = c :: l) (hc : c ≠ 'N') : p ++ r ≠ "Normal Range" := by
  intro h
  have hd := congrArg String.data h
  rw [String.data_append, hp] at hd
  have h2 : ("Normal Range" : String).data = 'N' :: ("ormal Range" : String).data := by
    decide
  rw [h2, List.cons_append] at hd
  exact hc (List.cons_eq_cons.mp hd).1

/-- `", ".join` of a list headed by a string of the shape `pre ++ x` with
`pre` not starting in 'N' is not "Normal Range". -/
theorem joinComma_pre_ne_normal (pre x : String) (c : Char) (d : List Char)
    (hpre : pre.data = c :: d) (hc : c ≠ 'N') (l : List String) :
    joinComma ((pre ++ x) :: l) ≠ "Normal Range" := by
  obtain ⟨s, hs⟩ := joinComma_cons (pre ++ x) l
  rw [hs, String.append_assoc]
  exact lit_append_ne_normal pre (x ++ s) c d hpre hc

/-- A nonempty `reasons` list never joins to the "Normal Range" sentinel:
each reason starts with "Overheating", "Voltage" or "High". -/
theorem reasons_ne_normal (t v e : Cell) (hne : EvApi.reasonsFor t v e ≠ []) :
    joinComma (EvApi.reasonsFor t v e) ≠ "Normal Range" := by
  unfold EvApi.reasonsFor at hne ⊢
  cases h1 : pyGt t 60 <;> cases h2 : pyGt v 15 <;> cases h3 : pyGt e (1 / 10) <;>
    simp only [h1, h2, h3, if_true, if_false, Bool.false_eq_true,
      List.nil_append, List.append_nil, List.cons_append] at hne ⊢
  · exact absurd rfl hne
  all_goals first
    | exact joinComma_pre_ne_normal "High Error Rate (" _ 'H'
        ("igh Error Rate (" : String).data (by decide) (by decide) _
    | exact joinComma_pre_ne_normal "Voltage Instability (" _ 'V'
        ("oltage Instability (" : String).data (by decide) (by decide) _
    | exact joinComma_pre_ne_normal "Overheating (" _ 'O'
        ("verheating (" : String).data (by decide) (by decide) _

/-- Under a high-risk flag the API root cause is never "Normal Range". -/
theorem api_root_cause_true_ne (row : List (String × Cell)) :
    EvApi.get_root_cause row true ≠ "Normal Range" := by
  unfold EvApi.get_root_cause
  by_cases hE : (EvApi.reasonsFor (EvApi.extractSig row "avg_peak_temp")
      (EvApi.extractSig row "voltage") (EvApi.extractSig row "error")).isEmpty
  · simp only [hE, Bool.true_and, if_true]
    decide
  · simp only [hE, Bool.false_and, if_false]
    rw [if_neg (by simp [hE])]
    exact reasons_ne_normal _ _ _ (by simpa [List.isEmpty_iff] using hE)

/-! The claim theorems. -/

/-- Claim C1, counterexample: an aligned row with `avg_peak_temp = 105.0`
(far above the spec's safety limit 80) together with raw classifier
probability 0.10 yields `risk_level = "Low"` and `status = "Normal"` — the
prediction path of `predict` applies no safety override, contradicting the
claim that such a state is always reported High / Need Attention. -/
theorem c1_counterexample :
    (EvApi.mkVerdict [("avg_peak_temp", some 105)] (1 / 10)).risk_level = "Low"
    ∧ (EvApi.mkVerdict [("avg_peak_temp", some 105)] (1 / 10)).status = "Normal"
    ∧ ("Low" : String) ≠ "High" := by
  refine ⟨by with_unfolding_all rfl, by with_unfolding_all rfl, by decide⟩

/-- Claim C1, amended: the verdict's `risk_level` and `status` are functions
of the raw classifier probability alone — "High"/"Need Attention" exactly
when probability > 0.5 — and are independent of the aligned vector, so no
base-signal safety override exists in the code. -/
theorem c1_amended : ∀ (row : List (String × Cell)) (p : ℚ),
    (EvApi.mkVerdict row p).risk_level = (if p > 1 / 2 then "High" else "Low")
    ∧ (EvApi.mkVerdict row p).status
        = (if p > 1 / 2 then "Need Attention" else "Normal") := by
  intro row p
  unfold EvApi.mkVerdict
  by_cases h : p > 1 / 2 <;> simp [h]

/-- Claim C2: `align_features` reads every value from record 0 of the batch
(`input_df[key].iloc[0]`) and broadcasts it, so in a two-record batch the
second record's verdict inputs are record 0's values (35, not its own 105),
and change when record 0 changes — records are not processed independently. -/
theorem c2_batch_broadcast :
    EvApi.align_features 10 6 [[("avg_peak_temp", 35)], [("avg_peak_temp", 105)]]
        ["avg_peak_temp"] = some [[some 35], [some 35]]
    ∧ EvApi.align_features 10 6 [[("avg_peak_temp", 105)], [("avg_peak_temp", 105)]]
        ["avg_peak_temp"] = some [[some 105], [some 105]] := by
  refine ⟨by with_unfolding_all rfl, by with_unfolding_all rfl⟩

/-- Claim C3: reconciliation is NOT total.  For the empty record and the
manifest `["error_rate_roll_mean_14d"]` the rolling-mean branch finds no base
column, assigns nothing, and the strict reordering raises a KeyError
(modelled as `none`) instead of degrading to a default. -/
theorem c3_rollmean_gap :
    EvApi.align_features 10 6 [[]] ["error_rate_roll_mean_14d"] = none := by
  with_unfolding_all rfl

/-- Claim C8: a high-risk verdict is never unexplained — whenever `predict`
classifies a record "Need Attention", the emitted `root_cause` is not the
"Normal Range" sentinel (the fallback is "Anomaly Detected (Pattern)"). -/
theorem c8_high_risk_explained (row : List (String × Cell)) (p : ℚ)
    (h : (EvApi.mkVerdict row p).status = "Need Attention") :
    (EvApi.mkVerdict row p).root_cause ≠ "Normal Range" := by
  by_cases hp : p > 1 / 2
  · have hrc : (EvApi.mkVerdict row p).root_cause = EvApi.get_root_cause row true := by
      simp only [EvApi.mkVerdict]
      rw [decide_eq_true hp]
    rw [hrc]
    exact api_root_cause_true_ne row
  · have hs : (EvApi.mkVerdict row p).status = "Normal" := by
      simp only [EvApi.mkVerdict]
      rw [decide_eq_false hp]
      simp
    rw [hs] at h
    exact absurd h (by decide)

/-- Claim C8, witness: a concrete record flagged high-risk (probability 0.9)
whose root cause is not "Normal Range". -/
theorem c8_witness :
    (EvApi.mkVerdict [("avg_peak_temp", some 105)] (9 / 10)).root_cause
      ≠ "Normal Range" :=
  c8_high_risk_explained [("avg_peak_temp", some 105)] (9 / 10)
    (by with_unfolding_all rfl)

/-- Claim C9, counterexample: with raw value 2, mean 0 and scale exactly 0,
the standardized deviation computed by `dianostic_engine.get_root_cause` is
2, not the zero the claim asserts for a zero-variance feature. -/
theorem c9_counterexample :
    Diag.zScores [some 2] [0] [0] = [some 2]
    ∧ (some (2 : ℚ) : Cell) ≠ some 0 := by
  refine ⟨by with_unfolding_all rfl, by decide⟩

/-- Claim C9, amended: every scale used as a divisor is nonzero (a scale of
exactly zero is replaced by 1), so a zero-variance feature contributes the
finite standardized deviation `raw - mean` — zero only when the raw value
equals the mean — rather than an undefined value. -/
theorem c9_amended :
    (∀ (scales : List ℚ), ∀ s ∈ Diag.adjustScales scales, s ≠ 0)
    ∧ (∀ (r m : ℚ), Diag.zScores [some r] [m] [0] = [some (r - m)]) := by
  constructor
  · intro scales s hs
    rw [Diag.adjustScales, List.mem_map] at hs
    obtain ⟨t, _, rfl⟩ := hs
    by_cases h0 : t = 0 <;> simp [h0]
  · intro r m
    simp [Diag.zScores, Diag.adjustScales]

/-- Claim C9, witness: the adjusted scale 1 (from input scale 0) is nonzero,
and the z-score at raw 2, mean 0, scale 0 is 2. -/
theorem c9_witness :
    (1 : ℚ) ≠ 0 ∧ Diag.zScores [some 2] [0] [0] = [some 2] :=
  ⟨c9_amended.1 [0] 1 (by decide), by simpa using c9_amended.2 2 0⟩

/-- Claim C7, counterexample: `dianostic_engine.get_root_cause` takes no
risk hint; for a record whose top standardized deviation is 1.0σ (well above
the claimed 0.5σ high-risk threshold) it surfaces no reason but returns its
fixed sentinel — which is also not the "Normal Range" string the claim
names. -/
theorem c7_counterexample :
    Diag.get_root_cause [("a", some 1)] (some ([0], [1])) ["a"]
      = some "No specific anomaly detected (All sensors within normal range)."
    ∧ ("No specific anomaly detected (All sensors within normal range)." : String)
        ≠ "Normal Range" := by
  refine ⟨by with_unfolding_all rfl, by decide⟩

/-- Claim C7, amended: the standardized-deviation explanation has no
adaptive threshold — it applies one fixed 2.0σ acceptance threshold, and
below it (or with no positive contributors) returns the sentinel
"No specific anomaly detected (All sensors within normal range).". -/
theorem c7_amended (raw : List Cell) (means scales : List ℚ)
    (names : List String)
    (h : ∀ p ∈ Diag.sortDesc (Diag.contributions names
        (Diag.zScores raw means scales)), p.2 < 2) :
    Diag.explainCore raw means scales names
      = "No specific anomaly detected (All sensors within normal range)." := by
  simp only [Diag.explainCore]
  cases hs : Diag.sortDesc (Diag.contributions names (Diag.zScores raw means scales)) with
  | nil => simp
  | cons a l =>
    have ha : a.2 < 2 := h a (by rw [hs]; exact List.mem_cons_self a l)
    simp [List.take, ha]

/-- Claim C7, witness: a concrete top score of 1.0σ is below the fixed
threshold and yields the sentinel. -/
theorem c7_witness :
    Diag.explainCore [some 1] [0] [1] ["a"]
      = "No specific anomaly detected (All sensors within normal range)." :=
  c7_amended [some 1] [0] [1] ["a"]
    (of_decide_eq_true (by with_unfolding_all rfl))

/-- Evaluation of `align_features` on one record supplying one feature under
its own (manifest) name: a direct match, with the ratio-calibration
multiplier applied when the feature name mentions voltage or instability and
the value is below 5. -/
theorem align_single_direct (f : String) (x : ℚ)
    (h1 : f ≠ "month_of_year") (h2 : f ≠ "day_of_week")
    (h3 : strContains f "model_type" = false) :
    EvApi.align_features 10 6 [[(f, x)]] [f]
      = some [[some (if (strContains f "voltage" || strContains f "instability")
            && decide (x < 5) then x * 230 else x)]] := by
  simp only [EvApi.align_features, EvApi.alignRow, EvApi.buildAligned, List.foldl_cons,
    List.foldl_nil, EvApi.alignStep, EvApi.searchKeys, EvApi.isColumn, EvApi.getCell,
    EvApi.setCol, EvApi.reorder, cellMul, pyLt, h1, h2, h3]
  simp [List.find?, List.lookup, List.mapM.loop, cellMul, mul_ite, mul_one]

/-- Claim C4, counterexample: a record supplying the value under the synonym
key "temperature" with manifest `["avg_peak_temp"]` aligns to 0.0, not to the
claimed 90.0 — the alias table is consulted in the opposite direction, so a
synonym record key never resolves a canonical manifest name. -/
theorem c4_counterexample :
    EvApi.align_features 10 6 [[("temperature", 90)]] ["avg_peak_temp"]
      = some [[some 0]]
    ∧ (some (0 : ℚ) : Cell) ≠ some 90 := by
  refine ⟨by with_unfolding_all rfl, by decide⟩

/-- Claim C4, amended: alias symmetry holds in the reversed direction — for
a manifest feature listed among the synonyms of a canonical record key, a
record supplying the value under the canonical key produces the same aligned
value as a record supplying it under the feature's own name; in particular
`{"avg_peak_temp": 90.0}` with manifest `["temperature"]` yields `[90.0]`. -/
theorem c4_amended :
    (∀ (f k : String) (al : List String) (x : ℚ),
        (k, al) ∈ EvApi.aliasMap → f ∈ al → f ≠ k →
        EvApi.align_features 10 6 [[(k, x)]] [f]
          = EvApi.align_features 10 6 [[(f, x)]] [f])
    ∧ EvApi.align_features 10 6 [[("avg_peak_temp", 90)]] ["temperature"]
        = some [[some 90]] := by
  constructor
  · intro f k al x hmem hal hfk
    fin_cases hmem <;> fin_cases hal <;>
      first
        | exact absurd rfl hfk
        | simp +decide [EvApi.align_features, EvApi.alignRow, EvApi.buildAligned,
            EvApi.alignStep, EvApi.searchKeys, EvApi.aliasMap, EvApi.isColumn, EvApi.getCell,
            EvApi.setCol, EvApi.reorder, cellMul, pyLt, List.find?, List.lookup,
            List.mapM.loop]
  · with_unfolding_all rfl

/-- Claim C4, witness: the canonical key "avg_peak_temp" serving the synonym
manifest feature "temperature" aligns exactly as the direct supply would. -/
theorem c4_witness :
    EvApi.align_features 10 6 [[("avg_peak_temp", 90)]] ["temperature"]
      = EvApi.align_features 10 6 [[("temperature", 90)]] ["temperature"] :=
  c4_amended.1 "temperature" "avg_peak_temp"
    ["avg_peak_temp", "temperature", "temp"] 90 (by decide) (by decide) (by decide)

/-- Claim C5, counterexample: the claim's own scenario input
`{"voltage_instability": 1.0}` with manifest `["voltage_instability",
"voltage_instability_roll_std_14d"]` aligns to `[230.0, 92.0]` — the base
value is first ratio-calibrated to 230, and the synthesized std is then
0.4 x 230 (the magnitude-dependent branch), not the claimed `[1.0, 0.05]`
nor `[1.0, 1.0*0.05]`. -/
theorem c5_counterexample :
    EvApi.align_features 10 6 [[("voltage_instability", 1)]]
        ["voltage_instability", "voltage_instability_roll_std_14d"]
      = some [[some 230, some 92]]
    ∧ ([some (230 : ℚ), some 92] : List Cell) ≠ [some 1, some (1 / 20)]
    ∧ ([some (230 : ℚ), some 92] : List Cell) ≠ [some 1, some (1 * (1 / 20))] := by
  refine ⟨by with_unfolding_all rfl,
    of_decide_eq_false (by with_unfolding_all rfl),
    of_decide_eq_false (by with_unfolding_all rfl)⟩

/-- Claim C5, amended: for a lone voltage base signal with no rolling-std
key, the aligned base value is first ratio-calibrated (x230 below 5), and the
synthesized standard deviation is then 0.4 of that aligned value when it
exceeds 15 and 0.05 of it otherwise — the fraction is magnitude-dependent and
applies to the calibrated proxy, and the no-proxy fallback is 0.0 (the
initialised proxy) rather than a 0.05 constant. -/
theorem c5_amended (x : ℚ) :
    EvApi.align_features 10 6 [[("voltage_instability", x)]]
        ["voltage_instability", "voltage_instability_roll_std_14d"]
      = some [[some (if x < 5 then x * 230 else x),
          some (if 15 < (if x < 5 then x * 230 else x)
                then (if x < 5 then x * 230 else x) * (2 / 5)
                else (if x < 5 then x * 230 else x) * (1 / 20))]] := by
  simp +decide [EvApi.align_features, EvApi.alignRow, EvApi.buildAligned, EvApi.alignStep,
    EvApi.searchKeys, EvApi.aliasMap, EvApi.isColumn, EvApi.getCell, EvApi.setCol,
    EvApi.reorder, EvApi.findProxy, cellMul, pyLt, pyGt, List.find?, List.lookup,
    List.mapM.loop, mul_ite, mul_one,
    show strContains "voltage_instability" "voltage" = true from by decide,
    show strContains "voltage_instability" "std" = false from by decide]
  by_cases h15 : 15 < (if x < 5 then x * 230 else x) <;>
    simp +decide [h15, List.find?]

/-- Claim C6, counterexample: the direct match does NOT always pass values
through unmodified — `{"voltage_instability": 1.0}` with manifest
`["voltage_instability"]` aligns to 230.0, the raw value times the ratio
calibration multiplier. -/
theorem c6_counterexample :
    EvApi.align_features 10 6 [[("voltage_instability", 1)]] ["voltage_instability"]
      = some [[some 230]]
    ∧ (some (230 : ℚ) : Cell) ≠ some 1 := by
  refine ⟨by with_unfolding_all rfl, by decide⟩

/-- Claim C6, amended: a direct match passes the raw value through
unmodified for every manifest entry that is not time-derived, not a
model-type feature, and whose name mentions neither voltage nor instability
(those are multiplied by 230 when below 5); in particular
`{"avg_peak_temp": 35.0}` with manifest `["avg_peak_temp"]` yields `[35.0]`. -/
theorem c6_amended :
    (∀ (f : String) (x : ℚ), f ≠ "month_of_year" → f ≠ "day_of_week" →
        strContains f "model_type" = false → strContains f "voltage" = false →
        strContains f "instability" = false →
        EvApi.align_features 10 6 [[(f, x)]] [f] = some [[some x]])
    ∧ EvApi.align_features 10 6 [[("avg_peak_temp", 35)]] ["avg_peak_temp"]
        = some [[some 35]] := by
  constructor
  · intro f x h1 h2 h3 hv hi
    rw [align_single_direct f x h1 h2 h3]
    simp [hv, hi]
  · with_unfolding_all rfl

/-- Claim C6, witness: the scenario `{"avg_peak_temp": 35.0}` with manifest
`["avg_peak_temp"]` passes through unmodified. -/
theorem c6_witness :
    EvApi.align_features 10 6 [[("avg_peak_temp", 35)]] ["avg_peak_temp"]
      = some [[some 35]] :=
  c6_amended.1 "avg_peak_temp" 35 (by decide) (by decide) (by decide) (by decide)
    (by decide)

/-- Claim C10: for every manifest feature whose name contains "voltage" or
"instability" (and is not a model-type or time feature), a directly matched
raw value below 5.0 is multiplied by 230.0 and a value of 5.0 or more passes
through unchanged; concretely, raw 4.9 aligns to 1127.0 (also when
alias-matched from the canonical key) while raw 5.0 aligns to 5.0, so the
aligned value is not monotone in the raw value. -/
theorem c10_voltage_calibration :
    (∀ (f : String) (x : ℚ),
        (strContains f "voltage" || strContains f "instability") = true →
        strContains f "model_type" = false →
        EvApi.align_features 10 6 [[(f, x)]] [f]
          = some [[some (if x < 5 then x * 230 else x)]])
    ∧ EvApi.align_features 10 6 [[("voltage_instability", 49 / 10)]] ["voltage_instability"]
        = some [[some 1127]]
    ∧ EvApi.align_features 10 6 [[("voltage_instability", 5)]] ["voltage_instability"]
        = some [[some 5]]
    ∧ EvApi.align_features 10 6 [[("voltage_instability", 49 / 10)]] ["voltage"]
        = some [[some 1127]]
    ∧ (49 / 10 : ℚ) < 5 ∧ (5 : ℚ) < 1127 := by
  refine ⟨?_, by with_unfolding_all rfl, by with_unfolding_all rfl,
    by with_unfolding_all rfl, by norm_num, by norm_num⟩
  intro f x hvi hm
  have h1 : f ≠ "month_of_year" := by
    intro he; rw [he] at hvi; exact absurd hvi (by decide)
  have h2 : f ≠ "day_of_week" := by
    intro he; rw [he] at hvi; exact absurd hvi (by decide)
  rw [align_single_direct f x h1 h2 hm]
  simp [hvi]

/-- Claim C10, witness: the feature "voltage_instability" at raw value 4.9
is scaled by 230. -/
theorem c10_witness :
    EvApi.align_features 10 6 [[("voltage_instability", 49 / 10)]] ["voltage_instability"]
      = some [[some ((49 / 10 : ℚ) * 230)]] := by
  rw [c10_voltage_calibration.1 "voltage_instability" (49 / 10) (by decide) (by decide),
    if_pos (by norm_num : (49 / 10 : ℚ) < 5)]
